import Mathlib

set_option maxRecDepth 100000

/-!
Shallow embedding of the scheduling backend in `app.py` (Flask service around
a Google-Calendar-backed availability engine), together with proofs about it.

Time model: a `TimeInstant` is an integer number of minutes since a fixed
reference Monday 00:00 UTC.  The policy timezone in the source is
`ZoneInfo('Africa/Johannesburg')` (app.py line 32), a fixed UTC+2 zone with no
daylight saving since 1944, so conversion to the policy's local wall clock is
addition of a constant 120-minute offset.  Python's `//` and `%` are floor
division with nonnegative remainder for positive divisors, which coincides
with Lean's Euclidean `Int./` and `Int.%` for the positive divisors used here.
-/

namespace Config

/-- Embeds `Config.BUSINESS_HOURS_START = 8` (app.py line 33). -/
def BUSINESS_HOURS_START : Int := 8

/-- Embeds `Config.BUSINESS_HOURS_END = 16` (app.py line 34). -/
def BUSINESS_HOURS_END : Int := 16

/-- Embeds `Config.APPOINTMENT_DURATION_MINUTES = 60` (app.py line 35). -/
def APPOINTMENT_DURATION_MINUTES : Int := 60

/-- Embeds `Config.SEARCH_WINDOW_DAYS = 14` (app.py line 36). -/
def SEARCH_WINDOW_DAYS : Int := 14

/-- Embeds `Config.SUGGESTION_COUNT = 5` (app.py line 37). -/
def SUGGESTION_COUNT : Nat := 5

/-- The fixed UTC offset, in minutes, of `Config.TIMEZONE =
ZoneInfo('Africa/Johannesburg')` (app.py line 32): UTC+02:00, no DST. -/
def utcOffsetMinutes : Int := 120

end Config

/-- A half-open busy or candidate time range `[start, stop)`; the field `stop`
embeds the source's `end` (a reserved word in Lean).  Instants are minutes
since the reference Monday 00:00 UTC. -/
structure TimeInterval where
  start : Int
  stop : Int
deriving DecidableEq, Repr

/-- Wall-clock minutes at the policy zone for an absolute instant: the
`astimezone(Config.TIMEZONE)` conversion (app.py line 228) under the fixed
+120-minute offset. -/
def localMinutes (t : Int) : Int := t + Config.utcOffsetMinutes

/-- The `.weekday()` of the policy-zone local datetime (app.py lines 206,
230): 0 = Monday ... 6 = Sunday, computed from local wall-clock minutes. -/
def localWeekday (t : Int) : Int := (localMinutes t / 1440) % 7

/-- The `.hour` of the policy-zone local datetime (app.py lines 207, 231). -/
def localHour (t : Int) : Int := (localMinutes t % 1440) / 60

/-- The business-hours test of app.py lines 206-207 and 230-231:
`0 <= weekday <= 4 and BUSINESS_HOURS_START <= hour < BUSINESS_HOURS_END`,
evaluated on the policy-zone local fields of the instant. -/
def businessOk (t : Int) : Bool :=
  decide ((0 ≤ localWeekday t ∧ localWeekday t ≤ 4) ∧
    (Config.BUSINESS_HOURS_START ≤ localHour t ∧
      localHour t < Config.BUSINESS_HOURS_END))

/-- Modelled from the spec: the calendar-read collaborator
`list_events(time_min, time_max)` (§6) behind `GoogleCalendarService.get_events`
(app.py lines 95-104).  The external Google Calendar `events.list` endpoint
returns the events that overlap the half-open query window: exactly those with
`event.end > timeMin` and `event.start < timeMax` (both bounds exclusive). -/
def get_events (busy : List TimeInterval) (timeMin timeMax : Int) : List TimeInterval :=
  busy.filter (fun ev => decide (timeMin < ev.stop ∧ ev.start < timeMax))

/-- The inner `is_free` loop of app.py lines 232-238: the candidate
`[s, e)` is free iff no busy event satisfies the open-interval overlap test
`s < event_end and e > event_start` (line 236). -/
def slotFree (busy : List TimeInterval) (s e : Int) : Bool :=
  busy.all (fun ev => decide (¬(s < ev.stop ∧ e > ev.start)))

/-- The while loop of app.py lines 226-242, with an explicit fuel parameter
standing for the (finite) iteration count.  Guard: fewer than
`SUGGESTION_COUNT` slots collected and `check_time_utc < end_of_search_window`
(line 226); body: compute the candidate end (line 227), test business hours on
the local fields of the cursor (lines 230-231), test the busy intervals
(lines 232-238), append the cursor on success (line 240), and advance the
cursor by 15 minutes unconditionally (line 242). -/
def scanLoop (busy : List TimeInterval) (wend : Int) :
    Nat → Int → List Int → List Int
  | 0, _, acc => acc
  | fuel + 1, cursor, acc =>
    if acc.length < Config.SUGGESTION_COUNT ∧ cursor < wend then
      let cand_end := cursor + Config.APPOINTMENT_DURATION_MINUTES
      let acc' :=
        if businessOk cursor then
          if slotFree busy cursor cand_end then acc ++ [cursor] else acc
        else acc
      scanLoop busy wend fuel (cursor + 15) acc'
    else acc

/-- Embeds `search_start_time = now_utc + timedelta(minutes=15)`
(app.py line 218). -/
def search_start (now : Int) : Int := now + 15

/-- Embeds `end_of_search_window = now_utc + timedelta(days=SEARCH_WINDOW_DAYS)`
(app.py line 219). -/
def window_end (now : Int) : Int := now + Config.SEARCH_WINDOW_DAYS * 1440

/-- The list `next_available_slots` produced by the scan of app.py lines
223-242.  The loop runs at most 1343 iterations (15-minute steps from
`now + 15` strictly below `now + 14 days`), so fuel 1344 is never the reason
the loop stops; `scanLoop_fuel_irrelevant` proves this. -/
def find_next_slots_list (now : Int) (busy : List TimeInterval) : List Int :=
  scanLoop busy (window_end now) 1344 (search_start now) []

/-- The acceptance test of one scan iteration (app.py lines 230-238) as a
predicate on the cursor instant. -/
def qualifies (busy : List TimeInterval) (t : Int) : Bool :=
  businessOk t && slotFree busy t (t + Config.APPOINTMENT_DURATION_MINUTES)

/-- The 15-minute grid the scan walks: instants `now + 15 + 15*k` for
`k = 0, ..., 1342`, i.e. all cursor values in `[now + 15, now + 14 days)`. -/
def gridPoints (now : Int) : List Int :=
  (List.range 1343).map (fun k : Nat => search_start now + 15 * (k : Int))

/-- The availability verdicts of the spec's data model (§3), which the JSON
responses of app.py lines 204, 208, 215, 245, 254 realize. -/
inductive AvailabilityVerdict where
  | SpecificSlotAvailable (instant : Int)
  | SpecificSlotUnavailableSuggestions (slots : List Int)
  | SuggestionsFound (slots : List Int)
  | NoSlotsFound
  | PastOrOutOfHours (reason : String)
deriving DecidableEq, Repr

/-- The verdict of the no-`start_time` path of `get_availability` (app.py
lines 244-254): `NoSlotsFound` when the scan found nothing (line 245), else
the suggestion list (line 254, "Sure, here are some upcoming available
times"). -/
def find_next_slots_verdict (now : Int) (busy : List TimeInterval) :
    AvailabilityVerdict :=
  if (find_next_slots_list now busy).isEmpty then .NoSlotsFound
  else .SuggestionsFound (find_next_slots_list now busy)

/-- The suggestions computed when a requested slot is busy: app.py line 221
fetches `all_busy_slots = get_events(now_utc, end_of_search_window)` and the
scan of lines 223-242 runs against that fetched list. -/
def availability_suggestions (now : Int) (busy : List TimeInterval) : List Int :=
  find_next_slots_list now (get_events busy now (window_end now))

/-- The `start_time` branch of `get_availability` after the requested instant
has been obtained (app.py lines 203-254): past check (203-204, strict `<`),
business-hours check (206-208), busy fetch over the candidate hour (210-213),
`SpecificSlotAvailable` when no event overlaps (214-215), otherwise fall
through to the grid scan, returning `NoSlotsFound` when it yields nothing
(244-245) and the "Unfortunately, that time is not available" suggestion list
otherwise (253-254). -/
def check_specific_slot (requested now : Int) (busy : List TimeInterval) :
    AvailabilityVerdict :=
  if requested < now then .PastOrOutOfHours "in the past"
  else if !businessOk requested then .PastOrOutOfHours "outside business hours"
  else if (get_events busy requested
      (requested + Config.APPOINTMENT_DURATION_MINUTES)).isEmpty then
    .SpecificSlotAvailable requested
  else if (availability_suggestions now busy).isEmpty then .NoSlotsFound
  else .SpecificSlotUnavailableSuggestions (availability_suggestions now busy)

/-- The Python exception classes that matter to the handlers: the parse and
localization failures and the catch clause of app.py line 200. -/
inductive PyError where
  | ValueError
  | TypeError
  | AttributeError (attr : String)
deriving DecidableEq, Repr

/-- The attribute names defined on a `zoneinfo.ZoneInfo` instance in the
Python standard library (class plus `tzinfo` base).  The pytz-style
`localize` method is not among them. -/
def zoneInfoAttributes : List String :=
  ["key", "utcoffset", "tzname", "dst", "fromutc", "from_file", "no_cache",
    "clear_cache"]

/-- Python attribute lookup on `Config.TIMEZONE` (a `ZoneInfo` object,
app.py line 32): yields the attribute when defined, else raises
`AttributeError`, as in `Config.TIMEZONE.localize` at app.py line 199. -/
def timezone_getattr (attr : String) : Except PyError Unit :=
  if attr ∈ zoneInfoAttributes then .ok () else .error (.AttributeError attr)

/-- Outcome of one `get_availability` request: a 400 response from the
`except (ValueError, TypeError)` clause (app.py lines 200-201), an exception
escaping the handler uncaught, or a reached availability verdict. -/
inductive HandlerOutcome where
  | badRequest (msg : String)
  | uncaught (e : PyError)
  | response (v : AvailabilityVerdict)
deriving DecidableEq, Repr

/-- The `get_availability` handler (app.py lines 188-254) after input-shape
validation.  `startTime` is `none` when the request carries no `start_time`
(line 196) and otherwise holds the outcome of `parse(data.start_time)`
(line 198), as local wall-clock minutes of the parsed naive datetime.  The
try block performs the parse and then the `Config.TIMEZONE.localize(naive_dt)`
call (line 199), whose attribute lookup precedes any call; the except clause
catches only `ValueError` and `TypeError` (line 200).  Had the lookup
succeeded, a pytz-style localize would interpret the naive wall clock in the
policy zone, giving the absolute instant `naive - utcOffsetMinutes` that
flows into the specific-slot logic. -/
def get_availability (startTime : Option (Except PyError Int)) (now : Int)
    (busy : List TimeInterval) : HandlerOutcome :=
  match startTime with
  | none => .response (find_next_slots_verdict now busy)
  | some parseResult =>
    match parseResult with
    | .error .ValueError => .badRequest "Invalid date format."
    | .error .TypeError => .badRequest "Invalid date format."
    | .error e => .uncaught e
    | .ok naive =>
      match timezone_getattr "localize" with
      | .error .ValueError => .badRequest "Invalid date format."
      | .error .TypeError => .badRequest "Invalid date format."
      | .error e => .uncaught e
      | .ok _ =>
        .response
          (check_specific_slot (naive - Config.utcOffsetMinutes) now busy)

/-- Embeds `SupabaseService.save_meeting` (app.py lines 134-140): the
Supabase insert outcome is caught by the blanket `except Exception` and only
logged, so the method itself never raises. -/
def save_meeting (dbResult : Except String Unit) : Except String Unit :=
  match dbResult with
  | .ok _ => .ok ()
  | .error _ => .ok ()

/-- Embeds `SupabaseService.log_call` (app.py lines 142-148): same blanket
exception swallowing as `save_meeting`. -/
def log_call (dbResult : Except String Unit) : Except String Unit :=
  match dbResult with
  | .ok _ => .ok ()
  | .error _ => .ok ()

/-- Outcomes of the three external calls the booking handler makes: the
Google Calendar `events().insert` (app.py lines 119-121, ok event id or
`HttpError`), and the two raw Supabase inserts (lines 137 and 145). -/
structure BookingEffects where
  createEvent : Except String String
  saveMeeting : Except String Unit
  logCall : Except String Unit

/-- The HTTP response of `book_appointment` plus the `[start, end)` interval
sent to `create_event`, when that call is reached. -/
structure BookingResponse where
  status : Nat
  body : String
  eventRequested : Option TimeInterval
deriving DecidableEq, Repr

/-- The success message of app.py lines 309-312 (without the contraction of
the source text). -/
def success_message (firstName email : String) : String :=
  "Perfect, " ++ firstName ++ "! I have successfully booked your 1-hour " ++
    "call. Our team will send a calendar invitation to " ++ email ++
    " shortly to confirm."

/-- The `book_appointment` handler after input validation (app.py lines
265-317): parse the start time (line 266, a raise lands in the blanket
`except Exception` of line 315, a 500), compute `end = start + 60` (line
267), create the calendar event (line 280, failure is a raise, also a 500),
then the two best-effort persistence writes (lines 293 and 307), and the 201
success response (line 313).  No past-time, business-hours, or availability
check appears anywhere on this path. -/
def book_appointment (parseResult : Except String Int) (fx : BookingEffects)
    (firstName email : String) : BookingResponse :=
  match parseResult with
  | .error e => ⟨500, "An internal error occurred: " ++ e, none⟩
  | .ok start_time_dt =>
    let end_time_dt := start_time_dt + Config.APPOINTMENT_DURATION_MINUTES
    match fx.createEvent with
    | .error e =>
      ⟨500, "An internal error occurred: " ++ e,
        some ⟨start_time_dt, end_time_dt⟩⟩
    | .ok _eventId =>
      match save_meeting fx.saveMeeting with
      | .error e =>
        ⟨500, "An internal error occurred: " ++ e,
          some ⟨start_time_dt, end_time_dt⟩⟩
      | .ok _ =>
        match log_call fx.logCall with
        | .error e =>
          ⟨500, "An internal error occurred: " ++ e,
            some ⟨start_time_dt, end_time_dt⟩⟩
        | .ok _ =>
          ⟨201, success_message firstName email,
            some ⟨start_time_dt, end_time_dt⟩⟩

/-! ## Characterization of the grid scan -/

/-- The cursor values still ahead of the scan when the cursor sits `15*m`
minutes before the window end: the instants `wend - 15*(m-j)`, `j < m`. -/
def gridFrom (wend : Int) (m : Nat) : List Int :=
  (List.range m).map (fun j : Nat => wend - 15 * ((m : Int) - (j : Int)))

lemma gridFrom_succ (wend : Int) (m : Nat) :
    gridFrom wend (m + 1) =
      (wend - 15 * ((m : Int) + 1)) :: gridFrom wend m := by
  unfold gridFrom
  rw [List.range_succ_eq_map]
  simp only [List.map_cons, List.map_map]
  refine congrArg₂ _ (by push_cast; ring) ?_
  apply List.map_congr_left
  intro j _
  simp only [Function.comp_apply]
  push_cast
  ring

lemma scanLoop_shift (busy : List TimeInterval) (wend : Int) :
    ∀ (m fuel : Nat) (acc : List Int), m ≤ fuel →
      scanLoop busy wend fuel (wend - 15 * (m : Int)) acc =
        acc ++ ((gridFrom wend m).filter (qualifies busy)).take
          (Config.SUGGESTION_COUNT - acc.length) := by
  intro m
  induction m with
  | zero =>
    intro fuel acc _
    have hgrid : gridFrom wend 0 = [] := rfl
    cases fuel with
    | zero => simp [scanLoop, hgrid]
    | succ f =>
      rw [scanLoop, if_neg (by push_cast; omega)]
      simp [hgrid]
  | succ m ih =>
    intro fuel acc hm
    cases fuel with
    | zero => omega
    | succ f =>
      rw [gridFrom_succ, scanLoop]
      by_cases hlen : acc.length < Config.SUGGESTION_COUNT
      · rw [if_pos ⟨hlen, by push_cast; omega⟩]
        have hstep : wend - 15 * ((m : Nat) + 1 : Int) + 15
            = wend - 15 * ((m : Nat) : Int) := by ring
        have hcast : ((m + 1 : Nat) : Int) = ((m : Nat) : Int) + 1 := by
          push_cast; ring
        rw [hcast, hstep]
        by_cases hb : businessOk (wend - 15 * ((m : Int) + 1)) = true
        · by_cases hs : slotFree busy (wend - 15 * ((m : Int) + 1))
              (wend - 15 * ((m : Int) + 1) +
                Config.APPOINTMENT_DURATION_MINUTES) = true
          · have hq : qualifies busy (wend - 15 * ((m : Int) + 1)) = true := by
              simp [qualifies, hb, hs]
            simp only [hb, hs, if_pos]
            rw [ih f (acc ++ [wend - 15 * ((m : Int) + 1)]) (by omega)]
            rw [List.filter_cons_of_pos hq]
            have hsub : Config.SUGGESTION_COUNT - acc.length =
                (Config.SUGGESTION_COUNT -
                  (acc ++ [wend - 15 * ((m : Int) + 1)]).length) + 1 := by
              simp only [List.length_append, List.length_singleton]
              omega
            rw [hsub, List.take_succ_cons, List.append_assoc,
              List.singleton_append]
          · have hq : qualifies busy (wend - 15 * ((m : Int) + 1)) = false := by
              simp [qualifies, hb, hs]
            simp only [hb, hs, if_pos, if_neg, Bool.false_eq_true,
              not_false_iff, ite_true, ite_false]
            rw [ih f acc (by omega), List.filter_cons_of_neg (by simp [hq])]
        · have hq : qualifies busy (wend - 15 * ((m : Int) + 1)) = false := by
            simp [qualifies, hb]
          simp only [hb, Bool.false_eq_true, if_neg, not_false_iff, ite_false]
          rw [ih f acc (by omega), List.filter_cons_of_neg (by simp [hq])]
      · rw [if_neg (by intro hand; exact hlen hand.1)]
        have : Config.SUGGESTION_COUNT - acc.length = 0 :=
          Nat.sub_eq_zero_of_le (Nat.not_lt.mp hlen)
        simp [this]

lemma search_start_eq_shift (now : Int) :
    window_end now - 15 * ((1343 : Nat) : Int) = search_start now := by
  unfold window_end search_start Config.SEARCH_WINDOW_DAYS
  push_cast
  ring

lemma gridFrom_eq_gridPoints (now : Int) :
    gridFrom (window_end now) 1343 = gridPoints now := by
  unfold gridFrom gridPoints
  apply List.map_congr_left
  intro j hj
  rw [List.mem_range] at hj
  unfold window_end search_start Config.SEARCH_WINDOW_DAYS
  push_cast
  omega

/-- The scan of app.py lines 223-242 collects exactly the first
`SUGGESTION_COUNT` qualifying instants of the 15-minute grid. -/
lemma find_next_slots_list_eq (now : Int) (busy : List TimeInterval) :
    find_next_slots_list now busy =
      ((gridPoints now).filter (qualifies busy)).take Config.SUGGESTION_COUNT := by
  have h := scanLoop_shift busy (window_end now) 1343 1344 [] (by omega)
  rw [search_start_eq_shift, gridFrom_eq_gridPoints] at h
  unfold find_next_slots_list
  rw [h]
  simp

/-- The loop exits through its own guards: any fuel at least 1343 produces
the same slot list. -/
lemma scanLoop_fuel_irrelevant (busy : List TimeInterval) (now : Int)
    (fuel : Nat) (h : 1343 ≤ fuel) :
    scanLoop busy (window_end now) fuel (search_start now) [] =
      find_next_slots_list now busy := by
  have h1 := scanLoop_shift busy (window_end now) 1343 fuel [] h
  have h2 := scanLoop_shift busy (window_end now) 1343 1344 [] (by omega)
  rw [search_start_eq_shift] at h1 h2
  unfold find_next_slots_list
  rw [h1, h2]

lemma gridPoints_pairwise (now : Int) : (gridPoints now).Pairwise (· < ·) := by
  unfold gridPoints
  rw [List.pairwise_map]
  exact (List.pairwise_lt_range 1343).imp (by intro a b h; omega)

lemma find_next_slots_list_pairwise (now : Int) (busy : List TimeInterval) :
    (find_next_slots_list now busy).Pairwise (· < ·) := by
  rw [find_next_slots_list_eq]
  exact List.Pairwise.sublist
    ((List.take_sublist _ _).trans (List.filter_sublist _))
    (gridPoints_pairwise now)

lemma find_next_slots_list_length (now : Int) (busy : List TimeInterval) :
    (find_next_slots_list now busy).length ≤ Config.SUGGESTION_COUNT := by
  rw [find_next_slots_list_eq]
  exact List.length_take_le _ _

lemma find_next_slots_list_mem (now : Int) (busy : List TimeInterval)
    (t : Int) (h : t ∈ find_next_slots_list now busy) :
    qualifies busy t = true := by
  rw [find_next_slots_list_eq] at h
  exact (List.mem_filter.mp (List.mem_of_mem_take h)).2

/-! ## Claim theorems -/

/-- C4: for every requested instant strictly earlier than `now`,
`check_specific_slot` yields the `PastOrOutOfHours "in the past"` verdict
(app.py lines 203-204 compare with strict `<`), and a requested instant
exactly equal to `now` is never rejected as past. -/
theorem past_strictly_before_now (t now : Int) (busy : List TimeInterval) :
    (t < now →
      check_specific_slot t now busy = .PastOrOutOfHours "in the past")
    ∧ check_specific_slot now now busy ≠ .PastOrOutOfHours "in the past" := by
  constructor
  · intro h
    unfold check_specific_slot
    rw [if_pos h]
  · unfold check_specific_slot
    rw [if_neg (lt_irrefl now)]
    by_cases hb : businessOk now = true
    · rw [if_neg (by simp [hb])]
      by_cases he : (get_events busy now
          (now + Config.APPOINTMENT_DURATION_MINUTES)).isEmpty
      · rw [if_pos he]
        exact fun h => nomatch h
      · rw [if_neg he]
        by_cases hs : (availability_suggestions now busy).isEmpty
        · rw [if_pos hs]
          exact fun h => nomatch h
        · rw [if_neg hs]
          exact fun h => nomatch h
    · rw [if_pos (by simp [Bool.not_eq_true] at hb; simp [hb])]
      intro h
      have : ("outside business hours" : String) = "in the past" := by
        injection h
      exact absurd this (by decide)

/-- C4 witness: the instant 0 (Monday 02:00 local) lies strictly before
`now = 780` and is rejected as past; at `t = now` the verdict is never
`"in the past"`. -/
theorem past_strictly_before_now_witness :
    (0 : Int) < 780
    ∧ check_specific_slot 0 780 [] = .PastOrOutOfHours "in the past"
    ∧ check_specific_slot 780 780 [] ≠ .PastOrOutOfHours "in the past" :=
  ⟨by decide, (past_strictly_before_now 0 780 []).1 (by decide),
    (past_strictly_before_now 0 780 []).2⟩

/-- C2: `check_specific_slot` rejects on business-hours grounds exactly when
the instant is not past and the business test on the policy-zone local
weekday and hour fails, and that test depends only on the local weekday and
local hour of the absolute instant at the policy zone (app.py lines 206-207
evaluate `weekday()` and `hour` of the SAST-converted datetime). -/
theorem business_hours_local_wall_clock (requested now : Int)
    (busy : List TimeInterval) :
    (check_specific_slot requested now busy =
        .PastOrOutOfHours "outside business hours" ↔
      now ≤ requested ∧ businessOk requested = false)
    ∧ (∀ t₁ t₂ : Int, localWeekday t₁ = localWeekday t₂ →
        localHour t₁ = localHour t₂ → businessOk t₁ = businessOk t₂) := by
  constructor
  · unfold check_specific_slot
    by_cases h1 : requested < now
    · rw [if_pos h1]
      constructor
      · intro h
        have : ("in the past" : String) = "outside business hours" := by
          injection h
        exact absurd this (by decide)
      · rintro ⟨ha, _⟩
        omega
    · rw [if_neg h1]
      rcases Bool.eq_false_or_eq_true (businessOk requested) with hb | hb
      · rw [if_neg (by simp [hb])]
        have hR : ¬(now ≤ requested ∧ businessOk requested = false) := by
          rintro ⟨_, hf⟩
          rw [hb] at hf
          cases hf
        by_cases he : (get_events busy requested
            (requested + Config.APPOINTMENT_DURATION_MINUTES)).isEmpty
        · rw [if_pos he]
          exact iff_of_false (fun h => nomatch h) hR
        · rw [if_neg he]
          by_cases hs : (availability_suggestions now busy).isEmpty
          · rw [if_pos hs]
            exact iff_of_false (fun h => nomatch h) hR
          · rw [if_neg hs]
            exact iff_of_false (fun h => nomatch h) hR
      · rw [if_pos (by simp [hb])]
        exact iff_of_true rfl ⟨by omega, hb⟩
  · intro t₁ t₂ h1 h2
    unfold businessOk
    rw [h1, h2]

/-- C2 witness: instants 0 and 10080 (one week apart, both Monday 02:00
local) get the same business verdict, and the instant 0 at `now = 0` is
rejected as outside business hours. -/
theorem business_hours_local_wall_clock_witness :
    check_specific_slot 0 0 [] = .PastOrOutOfHours "outside business hours"
    ∧ businessOk 0 = businessOk 10080 :=
  ⟨(business_hours_local_wall_clock 0 0 []).1.mpr ⟨by decide, by decide⟩,
    (business_hours_local_wall_clock 0 0 []).2 0 10080 (by decide)
      (by decide)⟩

/-- C3: the business-hours test constrains only the slot start: any
non-past instant whose local weekday is Monday through Friday and whose
local start hour lies in `[BUSINESS_HOURS_START, BUSINESS_HOURS_END)` is not
rejected on business-hours grounds, with no condition on where the slot ends
(app.py lines 206-208 never look at the slot end). -/
theorem start_hour_only_acceptance (requested now : Int)
    (busy : List TimeInterval) (hpast : now ≤ requested)
    (hwd : 0 ≤ localWeekday requested ∧ localWeekday requested ≤ 4)
    (hhr : Config.BUSINESS_HOURS_START ≤ localHour requested ∧
      localHour requested < Config.BUSINESS_HOURS_END) :
    check_specific_slot requested now busy ≠
      .PastOrOutOfHours "outside business hours" := by
  have hb : businessOk requested = true := by
    unfold businessOk
    exact decide_eq_true ⟨hwd, hhr⟩
  unfold check_specific_slot
  rw [if_neg (by omega), if_neg (by simp [hb])]
  by_cases he : (get_events busy requested
      (requested + Config.APPOINTMENT_DURATION_MINUTES)).isEmpty
  · rw [if_pos he]
    exact fun h => nomatch h
  · rw [if_neg he]
    by_cases hs : (availability_suggestions now busy).isEmpty
    · rw [if_pos hs]
      exact fun h => nomatch h
    · rw [if_neg hs]
      exact fun h => nomatch h

/-- C3 witness: the instant 810 is Monday 15:30 local; with
`BUSINESS_HOURS_END = 16` its start hour 15 lies in `[8, 16)` and the
request is accepted (here: available) although its 60-minute slot ends at
16:30 local, past the end of the window. -/
theorem start_hour_only_acceptance_witness :
    localWeekday 810 = 0 ∧ localHour 810 = 15
    ∧ localHour (810 + Config.APPOINTMENT_DURATION_MINUTES) = 16
    ∧ check_specific_slot 810 810 [] ≠
        .PastOrOutOfHours "outside business hours" :=
  ⟨by decide, by decide, by decide,
    start_hour_only_acceptance 810 810 [] (by decide) (by decide) (by decide)⟩

lemma get_events_isEmpty_iff (requested : Int) (busy : List TimeInterval) :
    (get_events busy requested
        (requested + Config.APPOINTMENT_DURATION_MINUTES)).isEmpty = true ↔
      ∀ ev ∈ busy, ¬(requested < ev.stop ∧
        requested + Config.APPOINTMENT_DURATION_MINUTES > ev.start) := by
  unfold get_events
  rw [List.isEmpty_iff, List.filter_eq_nil_iff]
  simp only [decide_eq_true_eq, gt_iff_lt]

/-- C1 counterexample: the requested instant 780 (Monday 15:00 local, at
`now = 780`) passes the past-time and business-hours checks and overlaps the
busy interval `[0, 21000)`, yet `check_specific_slot` returns `NoSlotsFound`
rather than `SpecificSlotUnavailableSuggestions`, because that busy interval
also blocks the whole 14-day fallback scan (app.py lines 244-245). -/
theorem specific_slot_unavailable_counterexample :
    (780 : Int) ≤ 780 ∧ businessOk 780 = true
    ∧ (∃ ev ∈ [TimeInterval.mk 0 21000], (780 : Int) < ev.stop ∧
        (780 : Int) + Config.APPOINTMENT_DURATION_MINUTES > ev.start)
    ∧ check_specific_slot 780 780 [⟨0, 21000⟩] = .NoSlotsFound := by
  exact ⟨by decide, by decide, by decide, by decide⟩

/-- C1 (amended): for a requested instant that passes the past-time and
business-hours checks, `check_specific_slot` returns
`SpecificSlotAvailable(requested)` exactly when no busy interval overlaps
the candidate `[requested, requested + slot_duration)` under the
open-interval rule; when some busy interval overlaps, it returns the
suggestions of the forward grid scan if that scan finds at least one slot,
and `NoSlotsFound` if it finds none. -/
theorem specific_slot_overlap_verdicts (requested now : Int)
    (busy : List TimeInterval) (h1 : now ≤ requested)
    (h2 : businessOk requested = true) :
    (check_specific_slot requested now busy =
        .SpecificSlotAvailable requested ↔
      ∀ ev ∈ busy, ¬(requested < ev.stop ∧
        requested + Config.APPOINTMENT_DURATION_MINUTES > ev.start))
    ∧ ((∃ ev ∈ busy, requested < ev.stop ∧
          requested + Config.APPOINTMENT_DURATION_MINUTES > ev.start) →
        availability_suggestions now busy ≠ [] →
        check_specific_slot requested now busy =
          .SpecificSlotUnavailableSuggestions
            (availability_suggestions now busy))
    ∧ ((∃ ev ∈ busy, requested < ev.stop ∧
          requested + Config.APPOINTMENT_DURATION_MINUTES > ev.start) →
        availability_suggestions now busy = [] →
        check_specific_slot requested now busy = .NoSlotsFound) := by
  have hkey := get_events_isEmpty_iff requested busy
  refine ⟨?_, ?_, ?_⟩
  · unfold check_specific_slot
    rw [if_neg (by omega), if_neg (by simp [h2])]
    by_cases he : (get_events busy requested
        (requested + Config.APPOINTMENT_DURATION_MINUTES)).isEmpty
    · rw [if_pos he]
      exact iff_of_true rfl (hkey.mp he)
    · rw [if_neg he]
      refine iff_of_false ?_ fun hall => he (hkey.mpr hall)
      by_cases hs : (availability_suggestions now busy).isEmpty
      · rw [if_pos hs]
        exact fun h => nomatch h
      · rw [if_neg hs]
        exact fun h => nomatch h
  · intro hex hne
    have he : ¬(get_events busy requested
        (requested + Config.APPOINTMENT_DURATION_MINUTES)).isEmpty = true := by
      intro hemp
      obtain ⟨ev, hev, hover⟩ := hex
      exact (hkey.mp hemp) ev hev hover
    have hs : ¬(availability_suggestions now busy).isEmpty = true := by
      rw [List.isEmpty_iff]
      exact hne
    unfold check_specific_slot
    rw [if_neg (by omega), if_neg (by simp [h2]), if_neg he, if_neg hs]
  · intro hex hnil
    have he : ¬(get_events busy requested
        (requested + Config.APPOINTMENT_DURATION_MINUTES)).isEmpty = true := by
      intro hemp
      obtain ⟨ev, hev, hover⟩ := hex
      exact (hkey.mp hemp) ev hev hover
    unfold check_specific_slot
    rw [if_neg (by omega), if_neg (by simp [h2]), if_neg he,
      if_pos (by rw [List.isEmpty_iff]; exact hnil)]

/-- C1 witness: at `now = 780` (Monday 15:00 local) the free request 780 is
available, and with the busy interval `[800, 900)` the same request is
unavailable and carries the grid scan's suggestions. -/
theorem specific_slot_overlap_verdicts_witness :
    check_specific_slot 780 780 [] = .SpecificSlotAvailable 780
    ∧ check_specific_slot 780 780 [⟨800, 900⟩] =
        .SpecificSlotUnavailableSuggestions
          (availability_suggestions 780 [⟨800, 900⟩]) :=
  ⟨(specific_slot_overlap_verdicts 780 780 [] (by decide) (by decide)).1.mpr
      (by decide),
    (specific_slot_overlap_verdicts 780 780 [⟨800, 900⟩] (by decide)
        (by decide)).2.1 (by decide) (by decide)⟩

/-- C5 counterexample: with `now = 780` (Monday 15:00 local) and an empty
calendar, the scan's first suggestion is 795 (Monday 15:15 local), whose
60-minute slot ends at 16:15 local — outside the Monday-Friday `[8, 16)`
window — so not every returned slot lies fully inside business hours. -/
theorem slot_end_outside_hours_counterexample :
    795 ∈ find_next_slots_list 780 []
    ∧ businessOk (795 + Config.APPOINTMENT_DURATION_MINUTES) = false
    ∧ Config.BUSINESS_HOURS_END ≤
        localHour (795 + Config.APPOINTMENT_DURATION_MINUTES) := by
  exact ⟨by decide, by decide, by decide⟩

/-- C5 (amended): every slot returned by the scan has its start inside
business hours by local wall clock (Monday-Friday, start hour in
`[BUSINESS_HOURS_START, BUSINESS_HOURS_END)`); the slot end is not
constrained and may run past `BUSINESS_HOURS_END` (the start-hour-only
policy of app.py lines 230-231). -/
theorem slots_start_within_business_hours (now : Int)
    (busy : List TimeInterval) (t : Int)
    (h : t ∈ find_next_slots_list now busy) : businessOk t = true := by
  have hq := find_next_slots_list_mem now busy t h
  unfold qualifies at hq
  rw [Bool.and_eq_true] at hq
  exact hq.1

/-- C5 witness: the first slot suggested for `now = 780` with one stale busy
interval starts at 795, Monday 15:15 local, inside business hours. -/
theorem slots_start_within_business_hours_witness :
    795 ∈ find_next_slots_list 780 [⟨0, 60⟩] ∧ businessOk 795 = true :=
  ⟨by decide,
    slots_start_within_business_hours 780 [⟨0, 60⟩] 795 (by decide)⟩

/-- C6: the scan returns at most `SUGGESTION_COUNT` slots, in strictly
ascending chronological order, each of duration exactly
`APPOINTMENT_DURATION_MINUTES` and overlapping no busy interval of its
input, and the returned list is exactly the first `SUGGESTION_COUNT`
qualifying instants of the 15-minute forward grid. -/
theorem find_next_slots_first_qualifying (now : Int)
    (busy : List TimeInterval) :
    find_next_slots_list now busy =
      ((gridPoints now).filter (qualifies busy)).take Config.SUGGESTION_COUNT
    ∧ (find_next_slots_list now busy).length ≤ Config.SUGGESTION_COUNT
    ∧ (find_next_slots_list now busy).Pairwise (· < ·)
    ∧ (∀ t ∈ find_next_slots_list now busy,
        (t + Config.APPOINTMENT_DURATION_MINUTES) - t =
          Config.APPOINTMENT_DURATION_MINUTES)
    ∧ (∀ t ∈ find_next_slots_list now busy, ∀ ev ∈ busy,
        ¬(t < ev.stop ∧
          t + Config.APPOINTMENT_DURATION_MINUTES > ev.start)) := by
  refine ⟨find_next_slots_list_eq now busy,
    find_next_slots_list_length now busy,
    find_next_slots_list_pairwise now busy, ?_, ?_⟩
  · intro t _
    ring
  · intro t ht ev hev
    have hq := find_next_slots_list_mem now busy t ht
    unfold qualifies at hq
    rw [Bool.and_eq_true] at hq
    have hs := hq.2
    unfold slotFree at hs
    rw [List.all_eq_true] at hs
    have := hs ev hev
    rw [decide_eq_true_eq] at this
    simpa [gt_iff_lt] using this

/-- C6 witness: with `now = 780` and one stale busy interval `[0, 60)`, the
slot 795 is returned and does not overlap that interval. -/
theorem find_next_slots_first_qualifying_witness :
    795 ∈ find_next_slots_list 780 [⟨0, 60⟩]
    ∧ TimeInterval.mk 0 60 ∈ [TimeInterval.mk 0 60]
    ∧ ¬((795 : Int) < (TimeInterval.mk 0 60).stop ∧
        (795 : Int) + Config.APPOINTMENT_DURATION_MINUTES >
          (TimeInterval.mk 0 60).start) :=
  ⟨by decide, by decide,
    (find_next_slots_first_qualifying 780 [⟨0, 60⟩]).2.2.2.2 795 (by decide)
      ⟨0, 60⟩ (by decide)⟩

/-- C7: the scan's cursor starts at `now + 15` minutes, the window ends at
`now + SEARCH_WINDOW_DAYS` days, any fuel at least 1343 yields the same
result (the loop always exits through its own guards: enough slots
collected, or the cursor reaching the window end after 15-minute steps taken
regardless of acceptance), and an empty result yields `NoSlotsFound`. -/
theorem scan_terminates_grid_characterization (now : Int)
    (busy : List TimeInterval) (fuel : Nat) (hfuel : 1343 ≤ fuel) :
    search_start now = now + 15
    ∧ window_end now = now + Config.SEARCH_WINDOW_DAYS * 1440
    ∧ scanLoop busy (window_end now) fuel (search_start now) [] =
        ((gridPoints now).filter (qualifies busy)).take
          Config.SUGGESTION_COUNT
    ∧ (find_next_slots_list now busy = [] →
        find_next_slots_verdict now busy = .NoSlotsFound) := by
  refine ⟨rfl, rfl, ?_, ?_⟩
  · rw [scanLoop_fuel_irrelevant busy now fuel hfuel,
      find_next_slots_list_eq]
  · intro h
    unfold find_next_slots_verdict
    rw [if_pos (by rw [List.isEmpty_iff]; exact h)]

/-- C7 witness: with `now = 0` and a busy interval covering the whole search
window, the scan at fuel 1343 terminates with zero slots and the verdict is
`NoSlotsFound`. -/
theorem scan_terminates_grid_characterization_witness :
    1343 ≤ 1343
    ∧ find_next_slots_verdict 0 [⟨0, 21000⟩] = .NoSlotsFound :=
  ⟨by decide,
    (scan_terminates_grid_characterization 0 [⟨0, 21000⟩] 1343
      (by decide)).2.2.2 (by decide)⟩

/-- C8: a persistence failure never blocks or rolls back a booking success:
when the calendar event is created, the response of `book_appointment` is
identical for every outcome of the two Supabase writes, and its status is
201 (app.py lines 134-148 swallow persistence exceptions; line 313 returns
the success response). -/
theorem persistence_failure_never_blocks_success (start : Int)
    (eid : String) (sres lres : Except String Unit)
    (firstName email : String) :
    book_appointment (Except.ok start) ⟨Except.ok eid, sres, lres⟩
        firstName email =
      book_appointment (Except.ok start)
        ⟨Except.ok eid, Except.ok (), Except.ok ()⟩ firstName email
    ∧ (book_appointment (Except.ok start) ⟨Except.ok eid, sres, lres⟩
        firstName email).status = 201 := by
  cases sres <;> cases lres <;> exact ⟨rfl, rfl⟩

/-- C9: for every request whose `start_time` parses, the
`Config.TIMEZONE.localize(naive_dt)` step of app.py line 199 raises
`AttributeError` (a `zoneinfo.ZoneInfo` has no `localize` method), which the
`except (ValueError, TypeError)` clause of line 200 does not catch, so the
handler never reaches the past-time check, the business-hours check, or any
availability verdict. -/
theorem localize_attribute_error_blocks_availability (naive now : Int)
    (busy : List TimeInterval) :
    get_availability (some (Except.ok naive)) now busy =
      .uncaught (.AttributeError "localize") := rfl

/-- C10: `book_appointment` performs no past-time, business-hours, or
availability check: for every parsed start instant whatsoever, once the
calendar event is created the handler returns the 201 success response, and
the event interval sent to the calendar is `[start, start + 60)`. -/
theorem booking_skips_availability_checks (start : Int)
    (fx : BookingEffects) (firstName email eid : String)
    (h : fx.createEvent = Except.ok eid) :
    book_appointment (Except.ok start) fx firstName email =
      ⟨201, success_message firstName email,
        some ⟨start, start + Config.APPOINTMENT_DURATION_MINUTES⟩⟩ := by
  rcases fx with ⟨ce, sm, lc⟩
  dsimp only at h
  subst h
  cases sm <;> cases lc <;> rfl

/-- C10 witness: the instant 7260 is Saturday 03:00 local (so on a weekend,
outside business hours), lies in the past of `now = 10000`, and overlaps the
busy interval `[7230, 7290)`; the booking nevertheless succeeds with 201 and
the event is created, even with both persistence writes failing. -/
theorem booking_skips_availability_checks_witness :
    businessOk 7260 = false
    ∧ (7260 : Int) < 10000
    ∧ ((7260 : Int) < (TimeInterval.mk 7230 7290).stop ∧
        (7260 : Int) + Config.APPOINTMENT_DURATION_MINUTES >
          (TimeInterval.mk 7230 7290).start)
    ∧ book_appointment (Except.ok 7260)
        ⟨Except.ok "evt_1", Except.error "db down", Except.error "db down"⟩
        "Ann" "ann@example.com" =
      ⟨201, success_message "Ann" "ann@example.com",
        some ⟨7260, 7260 + Config.APPOINTMENT_DURATION_MINUTES⟩⟩ :=
  ⟨by decide, by decide, by decide,
    booking_skips_availability_checks 7260
      ⟨Except.ok "evt_1", Except.error "db down", Except.error "db down"⟩
      "Ann" "ann@example.com" "evt_1" rfl⟩
